import Mathlib

/-!
Shallow embedding of `src/server.js` (the two-stage Vastu report relay):
the data model, the prompt builders `generateCoreAssessment`'s query and
`getAiQuery`, the Gemini JSON response extraction with JS optional
chaining, and the two Express handlers `/api/generateReport` and
`/api/handleChat` as pure functions over an abstract transport that
records every outbound call in order.

Numbers: frame headings are modelled as exact rationals; the only
floating-point artefact this code can produce is `0/0 = NaN` for an empty
frame list, modelled by `Option ℚ` with `none` for NaN.
-/

/-- Model of JS truthiness of the `GEMINI_API_KEY` environment value:
`none` is an unset variable, `some ""` is set but empty; both are falsy. -/
def jsTruthyKey : Option String → Bool
  | none => false
  | some s => !(s == "")

/-- Model of the JS expression `s || fallback` for a string `s`:
the empty string is falsy. -/
def jsOrString (s fallback : String) : String :=
  if s = "" then fallback else s

/-- Model of `x || fallback` where `x` came from optional chaining:
`undefined` (here `none`) and the empty string are both falsy. -/
def jsOrOpt (x : Option String) (fallback : String) : String :=
  match x with
  | none => fallback
  | some s => jsOrString s fallback

/-- Boolean test that `pat` is a leading run of `s` (character lists). -/
def listStarts : List Char → List Char → Bool
  | _, [] => true
  | [], _ :: _ => false
  | a :: as, b :: bs => a == b && listStarts as bs

/-- Boolean test that `pat` occurs contiguously somewhere in `s`. -/
def listHasSub : List Char → List Char → Bool
  | [], pat => pat.isEmpty
  | a :: rest, pat => listStarts (a :: rest) pat || listHasSub rest pat

/-- Substring occurrence on strings, via the character lists. -/
def strContains (s pat : String) : Bool :=
  listHasSub s.data pat.data

/-- Model of JS `Number.prototype.toFixed(1)` on an exact rational:
round to the nearest tenth (ties up) and print one decimal digit. -/
def toFixed1 (q : ℚ) : String :=
  let n : Int := round (q * 10)
  let m : Nat := n.natAbs
  (if n < 0 then "-" else "") ++ toString (m / 10) ++ "." ++ toString (m % 10)

/-- One captured frame of the scan: base64 image, compass heading, zone label. -/
structure Frame where
  image : String
  heading : ℚ
  zone : String
deriving DecidableEq, Repr

/-- Request-scoped scan payload of `/api/generateReport`.
`floorNumber` (a JS string-or-number) is modelled by its string form,
with `""` standing for any falsy value. -/
structure ScanData where
  capturedFrames : List Frame
  currentRoomTag : String
  roomLocationInHouse : String
  floorNumber : String
  holisticIssues : String
  holisticSurroundings : String
deriving DecidableEq, Repr

/-- Embeds `capturedFrames.reduce((sum, frame) => sum + frame.heading, 0) / capturedFrames.length`.
The empty reduce gives 0 and JS `0/0` is `NaN`, modelled as `none`;
otherwise the exact rational quotient. -/
def avgHeading (frames : List Frame) : Option ℚ :=
  if frames.length = 0 then none
  else some ((frames.foldl (fun sum frame => sum + frame.heading) 0) / (frames.length : ℚ))

/-- The average heading as interpolated by `avgHeading.toFixed(1)`:
JS `NaN.toFixed(1)` is the string `"NaN"`. -/
def avgHeadingDisplay (frames : List Frame) : String :=
  match avgHeading frames with
  | none => "NaN"
  | some q => toFixed1 q

/-- Insertion-ordered accumulation of distinct elements: the semantics of
feeding a JS array into `new Set` (first occurrence kept, order preserved). -/
def jsSetAux (acc : List String) : List String → List String
  | [] => acc
  | z :: rest => if z ∈ acc then jsSetAux acc rest else jsSetAux (acc ++ [z]) rest

/-- Embeds `[...new Set(scanData.capturedFrames.map(f => f.zone))].join(', ')`. -/
def vastuZonesObserved (frames : List Frame) : String :=
  String.intercalate ", " (jsSetAux [] (frames.map (fun f => f.zone)))

/-- One entry of the `parts` array sent to the generation endpoint. -/
inductive ReqPart where
  | inlineData (mimeType : String) (data : String)
  | text (s : String)
deriving DecidableEq, Repr

/-- Whether a part is an inline image. -/
def ReqPart.isImage : ReqPart → Bool
  | .inlineData _ _ => true
  | .text _ => false

/-- Whether a part is a text part. -/
def ReqPart.isText : ReqPart → Bool
  | .inlineData _ _ => false
  | .text _ => true

/-- Embeds the per-frame marker string pushed for frame `index`:
`--- Visual Data Segment ${index + 1} Captured at Heading ${frame.heading.toFixed(1)} degrees (Vastu Zone: ${frame.zone}) ---`. -/
def segmentMarker (index : Nat) (frame : Frame) : String :=
  "--- Visual Data Segment " ++ toString (index + 1) ++ " Captured at Heading " ++
    toFixed1 frame.heading ++ " degrees (Vastu Zone: " ++ frame.zone ++ ") ---"

/-- Embeds the `scanData.capturedFrames.forEach((frame, index) => ...)` loop of
the handler, carrying the running index: for each frame it pushes the inline
image part and then the text marker part. -/
def buildPartsAux (index : Nat) : List Frame → List ReqPart
  | [] => []
  | frame :: rest =>
      ReqPart.inlineData "image/jpeg" frame.image ::
        ReqPart.text (segmentMarker index frame) :: buildPartsAux (index + 1) rest

/-- The part list the handler accumulates before any instruction is appended. -/
def buildParts (frames : List Frame) : List ReqPart :=
  buildPartsAux 0 frames

/-- Specification-side list of the per-frame text markers, in frame order,
starting at segment index `index`. -/
def frameMarkers (index : Nat) : List Frame → List ReqPart
  | [] => []
  | frame :: rest => ReqPart.text (segmentMarker index frame) :: frameMarkers (index + 1) rest

/-- The segment count interpolated into the Stage-1 instruction:
`${parts.length - 1}` evaluated over JS numbers, hence an integer. -/
def interpolatedSegmentCount (parts : List ReqPart) : Int :=
  (parts.length : Int) - 1

/-- Embeds the `query` template literal built inside `generateCoreAssessment`,
over the `parts` argument it receives. -/
def coreAssessmentQuery (sd : ScanData) (parts : List ReqPart) : String :=
  "\n        CRITICAL INSTRUCTION: You are a Vastu Analyst AI. Analyze the provided " ++
    toString (interpolatedSegmentCount parts) ++ " visual segments \n        and the following room context: Room: " ++
    sd.currentRoomTag ++ ", Location: " ++ sd.roomLocationInHouse ++ ", \n        Concerns: " ++
    sd.holisticIssues ++
    ".\n        \n        CRITICAL TASK: Your SOLE output must be a concise, bulleted list of the top 5 to 7 most severe Vastu defects found in this area.\n        Focus ONLY on factual defects (directional, elemental, positional) and use simple language.\n        \n        Start with the exact bold markdown title: \n        **Core Vastu Assessment (Defects Found)**\n        \n        Followed by a list using dashes (-). Do NOT include remedies.\n    "

/-- Embeds the `sharedContext` template literal of `getAiQuery`. -/
def sharedContext (sd : ScanData) (coreAssessment : String) : String :=
  "\n        CORE VASTU FINDINGS (MUST BE USED AS THE BASIS FOR ALL REMEDIES):\n        " ++
    coreAssessment ++
    "\n        \n        CONTEXT FOR THIS REPORT:\n        - Area Scanned: " ++
    sd.currentRoomTag ++
    "\n        - Location (C-Point): The " ++ sd.currentRoomTag ++ " is in the " ++
    jsOrString sd.roomLocationInHouse "UNKNOWN" ++
    " zone of the house.\n        - Floor: " ++ jsOrString sd.floorNumber "N/A" ++
    "\n        - User's Concerns: " ++ sd.holisticIssues ++
    "\n        - Property Surroundings: " ++ sd.holisticSurroundings ++
    "\n        - Scan Data: Average Heading: " ++ avgHeadingDisplay sd.capturedFrames ++
    " degrees. Zones Covered: " ++ vastuZonesObserved sd.capturedFrames ++ ".\n    "

/-- Embeds `getAiQuery(scanData, isDeepAnalysis, coreAssessment)`: the final
(Stage-2) instruction template, deep/structural branch or standard
five-section branch. -/
def getAiQuery (sd : ScanData) (isDeepAnalysis : Bool) (coreAssessment : String) : String :=
  if isDeepAnalysis then
    "\n            CRITICAL INSTRUCTION: You are a Master Vastu Shastra Analyst AI, specializing in structural and permanent solutions.\n            Your task is to provide an EXPERT-LEVEL, STRUCTURAL Analysis based **EXCLUSIVELY** on the Core Vastu Findings provided below.\n            \n            " ++
      sharedContext sd coreAssessment ++
      "\n            \n            CRITICAL TASK:\n            Do NOT write a full report. Provide a structural analysis focusing on the defects in the CORE VASTU FINDINGS.\n            \n            Start with this exact title (using bold markdown):\n            **Expert Analysis (Structural Recommendations)**\n            \n            Then, add this disclaimer on a new line:\n            \"The following are high-stakes, structural remedies a professional consultant might suggest. These are major changes and should be considered carefully.\"\n            \n            Then, create two subsections, both using bullet points (using a dash \"-\"):\n            \n            **Minor Structural Recommendations**\n            (List minor demolition/construction remedies that address the core defects. e.g., \"- Relocating the stove from the North to the South-East corner of the kitchen.\")\n            \n            **Major Structural Recommendations**\n            (List high-stakes demolition/construction remedies that address the core defects. e.g., \"- The kitchen's location is a severe defect. The ideal expert solution is to move this kitchen to the South-East zone.\")\n            \n            Formatting: Use bullet points (using -). You MUST use **bold markdown** for the main title and two sub-section titles.\n        "
  else
    "\n            CRITICAL INSTRUCTION: You are a Master Vastu Shastra Analyst AI, specializing in non-structural, actionable remedies.\n            Your response must be a single, structured Vastu Report, following all instructions below exactly. Use the Core Vastu Findings to guide your report.\n            \n            " ++
      sharedContext sd coreAssessment ++
      "\n\n            Based on ALL this data, provide a comprehensive report. Tailor your analysis and remedies in Section I and IV to address the user's primary concerns and the CORE VASTU FINDINGS.\n            \n            The report must be structured into FIVE consecutive sections. Use **bold markdown** for all section titles:\n\n            **I. Executive Summary (Layman's Terms)**: Simple summary. Cover the 2-3 most critical findings (from CORE ASSESSMENT) and non-structural remedies, linking them to the user's primary concerns (if provided).\n            Ensure you mention the Vastu Zone compliance of the scanned area (" ++
      sd.currentRoomTag ++ ") based on its location (" ++ sd.roomLocationInHouse ++
      ").\n\n            **II. Directional Data and Environmental Assessment**: Technical analysis of the observed headings and visual elements.\n\n            **III. Analysis of Vastu Compliance**: Technical findings, issues, and defects found, explicitly referencing the points in the CORE ASSESSMENT.\n\n            **IV. Remedial Recommendations (Advanced)**: CRITICAL: This section MUST use bullet points (using a dash \"-\"). Structure this section into two sub-sections using **bold markdown**. All remedies must be NON-STRUCTURAL (no construction or demolition suggested):\n            **Minor Defects & Remedies**\n            (List non-structural remedies here, like placing plants, changing colors, or adding mirrors.)\n            **Major Defects & Remedies**\n            (List more significant NON-STRUCTURAL remedies here, like moving heavy furniture or changing bed positions.)\n            \n            **V. Vastu Tips & Remedies (Actionable Advice)**: A short, separate section offering quick, general Vastu tips related to this specific room type.\n\n            Formatting requirements: Use paragraph breaks for readability. You MUST use bullet points (using -). You MUST use **bold markdown** for all section and sub-section titles.\n        "

/-- One part of the upstream JSON response; `text` may be missing. -/
structure GenRespPart where
  text : Option String
deriving DecidableEq, Repr

/-- One candidate content of the upstream JSON response. -/
structure GenContent where
  parts : Option (List GenRespPart)
deriving DecidableEq, Repr

/-- One candidate of the upstream JSON response. -/
structure GenCandidate where
  content : Option GenContent
deriving DecidableEq, Repr

/-- The parsed upstream JSON response body, as far as the code consumes it. -/
structure GenResult where
  candidates : Option (List GenCandidate)
deriving DecidableEq, Repr

/-- Embeds the optional chain `result.candidates?.[0]?.content?.parts?.[0]?.text`:
each missing field or empty array yields `undefined`, here `none`. -/
def extractText (result : GenResult) : Option String :=
  ((((result.candidates.bind List.head?).bind GenCandidate.content).bind
      GenContent.parts).bind List.head?).bind GenRespPart.text

/-- A well-formed upstream response whose first candidate's first part is `s`. -/
def echoResult (s : String) : GenResult :=
  ⟨some [⟨some ⟨some [⟨some s⟩]⟩⟩]⟩

/-- One entry of the `safetySettings` array. -/
structure SafetySetting where
  category : String
  threshold : String
deriving DecidableEq, Repr

/-- The four safety overrides sent with every report-path payload. -/
def defaultSafetySettings : List SafetySetting :=
  [⟨"HARM_CATEGORY_HARASSMENT", "BLOCK_NONE"⟩,
   ⟨"HARM_CATEGORY_HATE_SPEECH", "BLOCK_NONE"⟩,
   ⟨"HARM_CATEGORY_SEXUALLY_EXPLICIT", "BLOCK_NONE"⟩,
   ⟨"HARM_CATEGORY_DANGEROUS_CONTENT", "BLOCK_NONE"⟩]

/-- An outbound report-path payload: `{ contents: [{ role, parts }], safetySettings }`
(the code always sends exactly one contents entry). -/
structure GenRequest where
  role : String
  parts : List ReqPart
  safetySettings : List SafetySetting
deriving DecidableEq, Repr

/-- One opaque role/content turn of the chat history, passed through unchanged. -/
structure ChatTurn where
  raw : String
deriving DecidableEq, Repr

/-- An outbound chat-path payload: `{ contents: chatHistory, systemInstruction }`. -/
structure ChatRequest where
  contents : List ChatTurn
  systemInstruction : String
deriving DecidableEq, Repr

/-- What the abstract transport answers for one outbound `fetch`:
either a non-success HTTP status with the error body text, or parsed JSON. -/
inductive UpstreamResp where
  | httpError (status : Nat) (body : String)
  | jsonOk (result : GenResult)
deriving DecidableEq, Repr

/-- The JSON body the handler sends back: `{ text }` or `{ error }`. -/
inductive RespBody where
  | text (s : String)
  | error (s : String)
deriving DecidableEq, Repr

/-- Outcome of one handler invocation: HTTP status, JSON body, and the
outbound generation calls issued, in order. -/
structure HandlerResult (ρ : Type) where
  status : Nat
  body : RespBody
  callsMade : List ρ
deriving DecidableEq, Repr

/-- A transport answering the first call with `a` and the second with `b`. -/
def twoCallTransport (a b : UpstreamResp) : Nat → UpstreamResp :=
  fun n => if n = 0 then a else b

/-- The fixed error body both handlers return when the credential is falsy. -/
def keyMissingError : String := "Server API Key is not configured."

/-- The placeholder `generateCoreAssessment` substitutes when the parsed
response carries no text (the `||` right operand at its return). -/
def assessmentFallback : String :=
  "**Core Vastu Assessment (Defects Found)**\n- Assessment failed to generate. Please rescan."

/-- The separator the handler puts between the core assessment and the
Stage-2 text: `${coreAssessment}\n\n---\n\n${aiResponse}`. -/
def reportSeparator : String := "\n\n---\n\n"

/-- The chat path's fixed fallback sentence (the `||` right operand there). -/
def chatFallback : String := "Sorry, I couldn't process that query."

/-- Embeds the `chatSystemPrompt` template literal of `/api/handleChat`. -/
def chatSystemPrompt (chatContextSummary : String) : String :=
  "You are a helpful and friendly Vastu Shastra AI assistant.\n        Your goal is to answer the user's questions. If the user asks a question about the Vastu analysis report, you MUST use the following context: --- REPORT CONTEXT START --- " ++
    chatContextSummary ++
    " --- REPORT CONTEXT END ---\n        If the user asks a general Vastu question, answer it concisely.\n        Keep your answers simple and friendly. You may use **bold markdown** for emphasis. For bulleted lists, you MUST use a dash (-) and NOT an asterisk (*)."

/-- Embeds the `/api/generateReport` handler over an abstract transport.
The handler first rejects a falsy credential, then builds the interleaved
frame parts, issues the Stage-1 (core assessment) call, on success builds
the Stage-2 query around the extracted core assessment and issues the
Stage-2 call, and finally returns core assessment, separator and Stage-2
text. A non-success upstream status becomes a thrown error caught at the
bottom, i.e. an HTTP 500 `{ error }` body. `transport n` answers the
`n`-th outbound call; `callsMade` records the calls actually issued. -/
def generateReportHandler (apiKey : Option String) (isDeepAnalysis : Bool)
    (sd : ScanData) (transport : Nat → UpstreamResp) : HandlerResult GenRequest :=
  if jsTruthyKey apiKey then
    let parts := buildParts sd.capturedFrames
    let req1 : GenRequest :=
      ⟨"user", parts ++ [ReqPart.text (coreAssessmentQuery sd parts)], defaultSafetySettings⟩
    match transport 0 with
    | .httpError status body =>
        ⟨500, RespBody.error
          ("Google API Error (Core Assessment): " ++ toString status ++ " - " ++ body), [req1]⟩
    | .jsonOk r1 =>
        let coreAssessment := jsOrOpt (extractText r1) assessmentFallback
        let userQuery := getAiQuery sd isDeepAnalysis coreAssessment
        let req2 : GenRequest := ⟨"user", parts ++ [ReqPart.text userQuery], defaultSafetySettings⟩
        match transport 1 with
        | .httpError status body =>
            ⟨500, RespBody.error
              ("Google API Error: " ++ toString status ++ " - " ++ body), [req1, req2]⟩
        | .jsonOk r2 =>
            let aiResponse := jsOrOpt (extractText r2) ""
            ⟨200, RespBody.text (coreAssessment ++ reportSeparator ++ aiResponse), [req1, req2]⟩
  else ⟨500, RespBody.error keyMissingError, []⟩

/-- Embeds the `/api/handleChat` handler over an abstract transport. -/
def handleChatHandler (apiKey : Option String) (chatHistory : List ChatTurn)
    (chatContextSummary : String) (transport : Nat → UpstreamResp) : HandlerResult ChatRequest :=
  if jsTruthyKey apiKey then
    let req : ChatRequest := ⟨chatHistory, chatSystemPrompt chatContextSummary⟩
    match transport 0 with
    | .httpError status body =>
        ⟨500, RespBody.error
          ("Google API Error: " ++ toString status ++ " - " ++ body), [req]⟩
    | .jsonOk r =>
        ⟨200, RespBody.text (jsOrOpt (extractText r) chatFallback), [req]⟩
  else ⟨500, RespBody.error keyMissingError, []⟩

/-- Specification-side description of first-occurrence deduplication:
keep each label's first occurrence, drop its later ones. -/
def firstOccurrences : List String → List String
  | [] => []
  | z :: rest => z :: firstOccurrences (rest.filter (fun w => decide (w ≠ z)))
termination_by l => l.length
decreasing_by
  simp only [List.length_cons, Nat.lt_succ_iff]
  exact List.length_filter_le _ _

/-- Specification-side arithmetic mean of the frame headings. -/
def headingMean (frames : List Frame) : ℚ :=
  (frames.map Frame.heading).sum / (frames.length : ℚ)

/-- The five exact bold section titles of the standard-mode template. -/
def standardSectionMarkers : List String :=
  ["**I. Executive Summary (Layman's Terms)**",
   "**II. Directional Data and Environmental Assessment**",
   "**III. Analysis of Vastu Compliance**",
   "**IV. Remedial Recommendations (Advanced)**",
   "**V. Vastu Tips & Remedies (Actionable Advice)**"]

/-- The three exact bold structural-analysis titles of the deep-mode template. -/
def deepSectionMarkers : List String :=
  ["**Expert Analysis (Structural Recommendations)**",
   "**Minor Structural Recommendations**",
   "**Major Structural Recommendations**"]

/-- A three-frame scan with headings 10, 20 and 30 degrees. -/
def exFrames3 : List Frame :=
  [⟨"imgA", 10, "North"⟩, ⟨"imgB", 20, "South"⟩, ⟨"imgC", 30, "North"⟩]

/-- A concrete scan payload over `exFrames3`. -/
def exScan : ScanData :=
  ⟨exFrames3, "Kitchen", "North-East", "2", "health issues", "open field to the East"⟩

/-- A scan payload with every field empty (no captured frames). -/
def emptyScan : ScanData :=
  ⟨[], "", "", "", "", ""⟩

/-- An upstream JSON response with none of the expected fields. -/
def malformedResult : GenResult := ⟨none⟩

set_option maxRecDepth 40000

/-! Helper lemmas: substring machinery, fold/mean, set semantics,
part-list structure. None of these is a claim theorem. -/

theorem listStarts_nil (s : List Char) : listStarts s [] = true := by
  cases s <;> rfl

theorem listStarts_append (p r : List Char) : listStarts (p ++ r) p = true := by
  induction p with
  | nil => simpa using listStarts_nil r
  | cons a as ih => simp [listStarts, ih]

theorem listStarts_extend (s p t : List Char) (h : listStarts s p = true) :
    listStarts (s ++ t) p = true := by
  induction s generalizing p with
  | nil =>
    cases p with
    | nil => cases t with
      | nil => rfl
      | cons b bs => rfl
    | cons b bs => simp [listStarts] at h
  | cons a as ih =>
    cases p with
    | nil => rfl
    | cons b bs =>
      simp only [listStarts, Bool.and_eq_true] at h
      simp only [List.cons_append, listStarts, Bool.and_eq_true]
      exact ⟨h.1, ih bs h.2⟩

theorem listHasSub_nil (s : List Char) : listHasSub s [] = true := by
  cases s with
  | nil => rfl
  | cons a as => simp [listHasSub, listStarts]

theorem listHasSub_of_starts (s p : List Char) (h : listStarts s p = true) :
    listHasSub s p = true := by
  cases s with
  | nil =>
    cases p with
    | nil => rfl
    | cons b bs => simp [listStarts] at h
  | cons a as => simp [listHasSub, h]

theorem listHasSub_append_right (s t p : List Char) (h : listHasSub t p = true) :
    listHasSub (s ++ t) p = true := by
  induction s with
  | nil => simpa using h
  | cons a as ih => simp [listHasSub, ih]

theorem listHasSub_append_left (s t p : List Char) (h : listHasSub s p = true) :
    listHasSub (s ++ t) p = true := by
  induction s generalizing p with
  | nil =>
    simp only [listHasSub, List.isEmpty_iff] at h
    subst h
    simpa using listHasSub_nil t
  | cons a as ih =>
    simp only [listHasSub, Bool.or_eq_true] at h
    rcases h with h | h
    · exact listHasSub_of_starts _ _ (listStarts_extend _ _ _ h)
    · simp only [List.cons_append, listHasSub, Bool.or_eq_true]
      exact Or.inr (ih p h)

theorem strContains_refl (p : String) : strContains p p = true := by
  have := listStarts_append p.data []
  rw [List.append_nil] at this
  exact listHasSub_of_starts _ _ this

theorem strContains_left (s t p : String) (h : strContains s p = true) :
    strContains (s ++ t) p = true := by
  unfold strContains at h ⊢
  rw [String.data_append]
  exact listHasSub_append_left _ _ _ h

theorem strContains_right (s t p : String) (h : strContains t p = true) :
    strContains (s ++ t) p = true := by
  unfold strContains at h ⊢
  rw [String.data_append]
  exact listHasSub_append_right _ _ _ h

theorem foldl_heading (l : List Frame) : ∀ c : ℚ,
    l.foldl (fun sum frame => sum + frame.heading) c = c + (l.map Frame.heading).sum := by
  induction l with
  | nil => intro c; simp
  | cons f rest ih => intro c; simp [List.foldl_cons, ih, add_assoc]

theorem avgHeading_eq_mean (frames : List Frame) (h : frames ≠ []) :
    avgHeading frames = some (headingMean frames) := by
  have hlen : frames.length ≠ 0 := fun hl => h (List.length_eq_zero.mp hl)
  simp [avgHeading, hlen, headingMean, foldl_heading]

theorem avgHeadingDisplay_eq (frames : List Frame) (h : frames ≠ []) :
    avgHeadingDisplay frames = toFixed1 (headingMean frames) := by
  simp [avgHeadingDisplay, avgHeading_eq_mean frames h]

theorem toFixed1_eq (q : ℚ) (n : Int) (h : round (q * 10) = n) :
    toFixed1 q =
      (if n < 0 then "-" else "") ++ toString (n.natAbs / 10) ++ "." ++ toString (n.natAbs % 10) := by
  simp only [toFixed1, h]

theorem jsSetAux_eq (l : List String) : ∀ acc : List String,
    jsSetAux acc l = acc ++ firstOccurrences (l.filter (fun z => decide (z ∉ acc))) := by
  induction l with
  | nil => intro acc; simp [jsSetAux, firstOccurrences]
  | cons z rest ih =>
    intro acc
    by_cases hz : z ∈ acc
    · rw [jsSetAux, if_pos hz, List.filter_cons_of_neg (by simp [hz]), ih acc]
    · have hfilter : rest.filter (fun w => decide (w ∉ acc ++ [z])) =
          (rest.filter (fun w => decide (w ∉ acc))).filter (fun w => decide (w ≠ z)) := by
        rw [List.filter_filter]
        apply List.filter_congr
        intro w _
        by_cases h1 : w = z
        · simp [h1]
        · by_cases h2 : w ∈ acc
          · simp [h1, h2]
          · simp [h1, h2]
      rw [jsSetAux, if_neg hz, ih (acc ++ [z]),
        List.filter_cons_of_pos (by simp [hz]), firstOccurrences, hfilter,
        List.append_assoc, List.singleton_append]

theorem firstOccurrences_sublist (l : List String) : (firstOccurrences l).Sublist l := by
  have H : ∀ n (l : List String), l.length ≤ n → (firstOccurrences l).Sublist l := by
    intro n
    induction n with
    | zero =>
      intro l hl
      have hnil : l = [] := List.length_eq_zero.mp (Nat.le_zero.mp hl)
      subst hnil
      simp [firstOccurrences]
    | succ n ih =>
      intro l hl
      cases l with
      | nil => simp [firstOccurrences]
      | cons z rest =>
        rw [firstOccurrences]
        apply List.Sublist.cons₂
        have h1 : (firstOccurrences (rest.filter (fun w => decide (w ≠ z)))).Sublist
            (rest.filter (fun w => decide (w ≠ z))) := by
          apply ih
          exact le_trans (List.length_filter_le _ _) (Nat.le_of_succ_le_succ (by simpa using hl))
        exact h1.trans (List.filter_sublist _)
  exact H l.length l (Nat.le_refl _)

theorem firstOccurrences_nodup (l : List String) : (firstOccurrences l).Nodup := by
  have H : ∀ n (l : List String), l.length ≤ n → (firstOccurrences l).Nodup := by
    intro n
    induction n with
    | zero =>
      intro l hl
      have hnil : l = [] := List.length_eq_zero.mp (Nat.le_zero.mp hl)
      subst hnil
      simp [firstOccurrences]
    | succ n ih =>
      intro l hl
      cases l with
      | nil => simp [firstOccurrences]
      | cons z rest =>
        rw [firstOccurrences]
        refine List.nodup_cons.mpr ⟨?_, ?_⟩
        · intro hmem
          have hsub := firstOccurrences_sublist (rest.filter (fun w => decide (w ≠ z)))
          have hz : z ∈ rest.filter (fun w => decide (w ≠ z)) := hsub.mem hmem
          simp at hz
        · apply ih
          exact le_trans (List.length_filter_le _ _) (Nat.le_of_succ_le_succ (by simpa using hl))
  exact H l.length l (Nat.le_refl _)

theorem jsSet_eq_firstOccurrences (l : List String) :
    jsSetAux [] l = firstOccurrences l := by
  have h := jsSetAux_eq l []
  simpa using h

theorem buildPartsAux_length (frames : List Frame) : ∀ index : Nat,
    (buildPartsAux index frames).length = 2 * frames.length := by
  induction frames with
  | nil => intro index; simp [buildPartsAux]
  | cons f rest ih =>
    intro index
    simp only [buildPartsAux, List.length_cons, ih, List.length_cons]
    ring

theorem buildPartsAux_images (frames : List Frame) : ∀ index : Nat,
    (buildPartsAux index frames).filter ReqPart.isImage =
      frames.map (fun f => ReqPart.inlineData "image/jpeg" f.image) := by
  induction frames with
  | nil => intro index; simp [buildPartsAux]
  | cons f rest ih =>
    intro index
    simp [buildPartsAux, List.filter_cons, ReqPart.isImage, ih]

theorem buildPartsAux_texts (frames : List Frame) : ∀ index : Nat,
    (buildPartsAux index frames).filter ReqPart.isText = frameMarkers index frames := by
  induction frames with
  | nil => intro index; simp [buildPartsAux, frameMarkers]
  | cons f rest ih =>
    intro index
    simp [buildPartsAux, frameMarkers, List.filter_cons, ReqPart.isText, ih]

theorem buildPartsAux_get (frames : List Frame) : ∀ (index j : Nat) (f : Frame),
    frames.get? j = some f →
    (buildPartsAux index frames).get? (2 * j) =
        some (ReqPart.inlineData "image/jpeg" f.image) ∧
    (buildPartsAux index frames).get? (2 * j + 1) =
        some (ReqPart.text (segmentMarker (index + j) f)) := by
  induction frames with
  | nil => intro index j f h; simp at h
  | cons g rest ih =>
    intro index j f h
    cases j with
    | zero =>
      simp only [List.get?] at h
      injection h with h
      subst h
      simp [buildPartsAux]
    | succ j' =>
      have h' : rest.get? j' = some f := by simpa [List.get?] using h
      have e1 : 2 * (j' + 1) = (2 * j' + 1) + 1 := by ring
      have e2 : 2 * (j' + 1) + 1 = ((2 * j' + 1) + 1) + 1 := by ring
      have hrec := ih (index + 1) j' f h'
      constructor
      · rw [e1]
        simpa [buildPartsAux] using hrec.1
      · rw [e2]
        have e3 : index + 1 + j' = index + (j' + 1) := by ring
        rw [e3] at hrec
        simpa [buildPartsAux] using hrec.2

theorem extractText_echo (s : String) : extractText (echoResult s) = some s := rfl

/-- C3: while the API credential is absent, both `/api/generateReport` and
`/api/handleChat` return HTTP 500 with the fixed JSON error body and issue
zero outbound calls to the generation endpoint, whatever the transport
would have answered. -/
theorem missing_key_rejects_without_calls (isDeepAnalysis : Bool) (sd : ScanData)
    (chatHistory : List ChatTurn) (chatContextSummary : String)
    (transport : Nat → UpstreamResp) :
    generateReportHandler none isDeepAnalysis sd transport =
      ⟨500, RespBody.error keyMissingError, []⟩ ∧
    handleChatHandler none chatHistory chatContextSummary transport =
      ⟨500, RespBody.error keyMissingError, []⟩ :=
  ⟨rfl, rfl⟩

/-- C4: when the Stage-1 (core assessment) upstream call answers with a
non-success HTTP status, exactly one outbound call was issued (so no
Stage-2 call ever happens), the handler returns HTTP 500 whose body is the
JSON error carrying that status, and no success body is returned. -/
theorem stage1_failure_stops_pipeline (key : Option String) (isDeepAnalysis : Bool)
    (sd : ScanData) (status : Nat) (body : String) (transport : Nat → UpstreamResp)
    (hkey : jsTruthyKey key = true) (h0 : transport 0 = .httpError status body) :
    (generateReportHandler key isDeepAnalysis sd transport).callsMade.length = 1 ∧
    (generateReportHandler key isDeepAnalysis sd transport).status = 500 ∧
    (generateReportHandler key isDeepAnalysis sd transport).body =
      RespBody.error ("Google API Error (Core Assessment): " ++ toString status ++ " - " ++ body) ∧
    ∀ s : String, (generateReportHandler key isDeepAnalysis sd transport).body ≠ RespBody.text s := by
  simp [generateReportHandler, hkey, h0]

theorem stage1_failure_stops_pipeline_witness :
    (generateReportHandler (some "key") false emptyScan
        (fun _ => .httpError 503 "Service Unavailable")).callsMade.length = 1 ∧
    (generateReportHandler (some "key") false emptyScan
        (fun _ => .httpError 503 "Service Unavailable")).status = 500 :=
  ⟨(stage1_failure_stops_pipeline (some "key") false emptyScan 503 "Service Unavailable"
      _ (by decide) rfl).1,
   (stage1_failure_stops_pipeline (some "key") false emptyScan 503 "Service Unavailable"
      _ (by decide) rfl).2.1⟩

/-- C1: when both generation calls succeed and yield (non-empty) text, the
`/api/generateReport` response is HTTP 200 and its text is exactly the
Stage-1 text, the separator line, then the Stage-2 text. -/
theorem report_roundtrip (key : Option String) (isDeepAnalysis : Bool) (sd : ScanData)
    (s1 s2 : String) (hkey : jsTruthyKey key = true) (h1 : s1 ≠ "") (h2 : s2 ≠ "") :
    (generateReportHandler key isDeepAnalysis sd
        (twoCallTransport (.jsonOk (echoResult s1)) (.jsonOk (echoResult s2)))).status = 200 ∧
    (generateReportHandler key isDeepAnalysis sd
        (twoCallTransport (.jsonOk (echoResult s1)) (.jsonOk (echoResult s2)))).body =
      RespBody.text (s1 ++ reportSeparator ++ s2) := by
  simp [generateReportHandler, hkey, twoCallTransport, extractText_echo, jsOrOpt, jsOrString, h1, h2]

theorem report_roundtrip_witness :
    (generateReportHandler (some "key") false exScan
        (twoCallTransport (.jsonOk (echoResult "CoreAssessmentMock"))
          (.jsonOk (echoResult "FinalMock")))).status = 200 ∧
    (generateReportHandler (some "key") false exScan
        (twoCallTransport (.jsonOk (echoResult "CoreAssessmentMock"))
          (.jsonOk (echoResult "FinalMock")))).body =
      RespBody.text ("CoreAssessmentMock" ++ reportSeparator ++ "FinalMock") :=
  report_roundtrip (some "key") false exScan "CoreAssessmentMock" "FinalMock"
    (by decide) (by decide) (by decide)

/-- C2 (amended): an upstream response that parses as JSON but lacks the
expected candidates/content/parts/text fields is not fatal — the request
still returns HTTP 200. On the chat path the text falls back to the fixed
sentence; on the report path the Stage-2 extraction falls back to the
empty string, while the Stage-1 extraction falls back to the fixed
bold-titled placeholder assessment (not the empty string). -/
theorem malformed_response_not_fatal (key : Option String)
    (chatHistory : List ChatTurn) (chatContextSummary : String)
    (sd : ScanData) (isDeepAnalysis : Bool) (r r1 r2 : GenResult)
    (hkey : jsTruthyKey key = true)
    (hr : extractText r = none) (hr1 : extractText r1 = none) (hr2 : extractText r2 = none) :
    (handleChatHandler key chatHistory chatContextSummary (fun _ => .jsonOk r)).status = 200 ∧
    (handleChatHandler key chatHistory chatContextSummary (fun _ => .jsonOk r)).body =
      RespBody.text chatFallback ∧
    (∀ ra : GenResult,
      (generateReportHandler key isDeepAnalysis sd
          (twoCallTransport (.jsonOk ra) (.jsonOk r2))).status = 200 ∧
      (generateReportHandler key isDeepAnalysis sd
          (twoCallTransport (.jsonOk ra) (.jsonOk r2))).body =
        RespBody.text
          (jsOrOpt (extractText ra) assessmentFallback ++ reportSeparator ++ "")) ∧
    (∀ rb : GenResult,
      (generateReportHandler key isDeepAnalysis sd
          (twoCallTransport (.jsonOk r1) (.jsonOk rb))).status = 200 ∧
      (generateReportHandler key isDeepAnalysis sd
          (twoCallTransport (.jsonOk r1) (.jsonOk rb))).body =
        RespBody.text
          (assessmentFallback ++ reportSeparator ++ jsOrOpt (extractText rb) "")) := by
  refine ⟨?_, ?_, ?_, ?_⟩
  · simp [handleChatHandler, hkey]
  · simp [handleChatHandler, hkey, hr, jsOrOpt]
  · intro ra
    constructor
    · simp [generateReportHandler, hkey, twoCallTransport]
    · simp [generateReportHandler, hkey, twoCallTransport, hr2, jsOrOpt]
  · intro rb
    constructor
    · simp [generateReportHandler, hkey, twoCallTransport]
    · simp [generateReportHandler, hkey, twoCallTransport, hr1, jsOrOpt]

theorem malformed_response_not_fatal_witness :
    jsTruthyKey (some "key") = true ∧ extractText malformedResult = none ∧
    (handleChatHandler (some "key") [] "summary" (fun _ => .jsonOk malformedResult)).body =
      RespBody.text chatFallback :=
  ⟨by decide, rfl,
   (malformed_response_not_fatal (some "key") [] "summary" emptyScan false
      malformedResult malformedResult malformedResult (by decide) rfl rfl rfl).2.1⟩

/-- C2 (counterexample): with the Stage-1 upstream response malformed and
the Stage-2 call echoing "FinalMock", the report path returns HTTP 200 but
its text is the bold-titled placeholder followed by the separator and
"FinalMock" — not the empty string in place of the Stage-1 extraction. -/
theorem report_path_empty_extraction_cex :
    (generateReportHandler (some "key") false emptyScan
        (twoCallTransport (.jsonOk malformedResult) (.jsonOk (echoResult "FinalMock")))).status = 200 ∧
    (generateReportHandler (some "key") false emptyScan
        (twoCallTransport (.jsonOk malformedResult) (.jsonOk (echoResult "FinalMock")))).body ≠
      RespBody.text ("" ++ reportSeparator ++ "FinalMock") ∧
    (generateReportHandler (some "key") false emptyScan
        (twoCallTransport (.jsonOk malformedResult) (.jsonOk (echoResult "FinalMock")))).body =
      RespBody.text (assessmentFallback ++ reportSeparator ++ "FinalMock") :=
  ⟨by decide, by decide, by decide⟩

/-- C5: for a scan with N captured frames, the Stage-1 request is the first
outbound call and its part list is the interleaved frame parts followed by
the instruction text part; the interleaved list has length 2N, its image
parts are exactly the N frame images in frame order, its text parts are
exactly the N per-frame markers (segment index, one-decimal heading, zone
label) in frame order, and frame j sits at positions 2j (image) and 2j+1
(marker). -/
theorem stage1_prompt_structure (sd : ScanData) (key : Option String)
    (isDeepAnalysis : Bool) (transport : Nat → UpstreamResp)
    (hkey : jsTruthyKey key = true) :
    (generateReportHandler key isDeepAnalysis sd transport).callsMade.head? =
      some ⟨"user",
        buildParts sd.capturedFrames ++
          [ReqPart.text (coreAssessmentQuery sd (buildParts sd.capturedFrames))],
        defaultSafetySettings⟩ ∧
    (buildParts sd.capturedFrames).length = 2 * sd.capturedFrames.length ∧
    (buildParts sd.capturedFrames).filter ReqPart.isImage =
      sd.capturedFrames.map (fun f => ReqPart.inlineData "image/jpeg" f.image) ∧
    (buildParts sd.capturedFrames).filter ReqPart.isText =
      frameMarkers 0 sd.capturedFrames ∧
    ∀ (j : Nat) (f : Frame), sd.capturedFrames.get? j = some f →
      (buildParts sd.capturedFrames).get? (2 * j) =
          some (ReqPart.inlineData "image/jpeg" f.image) ∧
      (buildParts sd.capturedFrames).get? (2 * j + 1) =
          some (ReqPart.text (segmentMarker j f)) := by
  refine ⟨?_, buildPartsAux_length _ 0, buildPartsAux_images _ 0, buildPartsAux_texts _ 0, ?_⟩
  · cases h0 : transport 0 with
    | httpError status body => simp [generateReportHandler, hkey, h0]
    | jsonOk r1 =>
      cases h1 : transport 1 with
      | httpError status body => simp [generateReportHandler, hkey, h0, h1]
      | jsonOk r2 => simp [generateReportHandler, hkey, h0, h1]
  · intro j f hj
    have h := buildPartsAux_get sd.capturedFrames 0 j f hj
    simpa [buildParts] using h

theorem stage1_prompt_structure_witness :
    jsTruthyKey (some "key") = true ∧
    (buildParts exScan.capturedFrames).length = 2 * exScan.capturedFrames.length :=
  ⟨by decide,
   (stage1_prompt_structure exScan (some "key") false
      (fun _ => .jsonOk (echoResult "ok")) (by decide)).2.1⟩

/-- C6 (amended): the two Stage-2 instruction templates are mutually
exclusive at the template level: with all interpolated fields empty, the
deep-analysis text contains none of the standard mode's five bold section
markers and the standard text contains none of the deep mode's three bold
structural markers, while each mode's text does contain all of its own
markers — so for a single isDeepAnalysis value exactly one template is
emitted. (Arbitrary interpolated inputs, notably the injected core
assessment, can carry either mode's markers into the other text, so the
exclusion cannot hold for every scanData and core-assessment input.) -/
theorem mode_templates_mutually_exclusive :
    standardSectionMarkers.all
      (fun m => !(strContains (getAiQuery emptyScan true "") m)) = true ∧
    deepSectionMarkers.all
      (fun m => !(strContains (getAiQuery emptyScan false "") m)) = true ∧
    deepSectionMarkers.all
      (fun m => strContains (getAiQuery emptyScan true "") m) = true ∧
    standardSectionMarkers.all
      (fun m => strContains (getAiQuery emptyScan false "") m) = true :=
  ⟨by decide, by decide, by decide, by decide⟩

/-- C6 (counterexample): a core-assessment input that itself carries the
standard mode's first section marker makes the deep-analysis instruction
text contain that marker, refuting the exclusion quantified over every
core-assessment input. -/
theorem mode_templates_cex :
    strContains
      (getAiQuery emptyScan true "**I. Executive Summary (Layman's Terms)**")
      "**I. Executive Summary (Layman's Terms)**" = true := by
  decide

/-- C9: the segment count interpolated into the Stage-1 instruction is the
part-list length minus one, which over the interleaved list equals 2N - 1
for N captured frames — strictly more than N whenever N exceeds 1. -/
theorem stage1_segment_count_overstates (frames : List Frame) :
    interpolatedSegmentCount (buildParts frames) = 2 * (frames.length : Int) - 1 ∧
    (1 < frames.length →
      (frames.length : Int) < interpolatedSegmentCount (buildParts frames)) := by
  have hlen : (buildParts frames).length = 2 * frames.length := buildPartsAux_length frames 0
  constructor
  · simp only [interpolatedSegmentCount, hlen]
    push_cast
    ring
  · intro h
    simp only [interpolatedSegmentCount, hlen]
    omega

theorem stage1_segment_count_overstates_witness :
    interpolatedSegmentCount (buildParts exFrames3) = 5 ∧
    (exFrames3.length : Int) < interpolatedSegmentCount (buildParts exFrames3) := by
  have h := stage1_segment_count_overstates exFrames3
  have hlen : exFrames3.length = 3 := rfl
  constructor
  · rw [h.1, hlen]
    norm_num
  · exact h.2 (by rw [hlen]; norm_num)

theorem sharedContext_contains_display (sd : ScanData) (core : String) :
    strContains (sharedContext sd core) (avgHeadingDisplay sd.capturedFrames) = true := by
  unfold sharedContext
  apply strContains_left
  apply strContains_left
  apply strContains_left
  apply strContains_right
  exact strContains_refl _

theorem getAiQuery_contains (sd : ScanData) (isDeepAnalysis : Bool) (core p : String)
    (h : strContains (sharedContext sd core) p = true) :
    strContains (getAiQuery sd isDeepAnalysis core) p = true := by
  cases isDeepAnalysis with
  | true =>
    unfold getAiQuery
    rw [if_pos rfl]
    exact strContains_left _ _ _ (strContains_right _ _ _ h)
  | false =>
    unfold getAiQuery
    rw [if_neg Bool.false_ne_true]
    exact strContains_left _ _ _ (strContains_left _ _ _ (strContains_left _ _ _
      (strContains_left _ _ _ (strContains_left _ _ _ (strContains_right _ _ _ h)))))

/-- C7: for a non-empty frame list the average heading is the arithmetic
mean of all frame headings (exactly, as a rational), its display is the
one-decimal formatting of that mean, and that display is interpolated into
the Stage-2 prompt. The witness instantiates headings [10, 20, 30], whose
computed average is 20 and displays as "20.0". -/
theorem avg_heading_arithmetic_mean (frames : List Frame) (h : frames ≠ []) :
    avgHeading frames = some (headingMean frames) ∧
    avgHeadingDisplay frames = toFixed1 (headingMean frames) ∧
    ∀ (sd : ScanData) (isDeepAnalysis : Bool) (coreAssessment : String),
      sd.capturedFrames = frames →
      strContains (getAiQuery sd isDeepAnalysis coreAssessment)
        (toFixed1 (headingMean frames)) = true := by
  refine ⟨avgHeading_eq_mean frames h, avgHeadingDisplay_eq frames h, ?_⟩
  intro sd isDeepAnalysis coreAssessment hsd
  have hd : avgHeadingDisplay sd.capturedFrames = toFixed1 (headingMean frames) := by
    rw [hsd]
    exact avgHeadingDisplay_eq frames h
  have hc := sharedContext_contains_display sd coreAssessment
  rw [hd] at hc
  exact getAiQuery_contains sd isDeepAnalysis coreAssessment _ hc

theorem avg_heading_arithmetic_mean_witness :
    avgHeading exFrames3 = some 20 ∧ avgHeadingDisplay exFrames3 = "20.0" := by
  have h := avg_heading_arithmetic_mean exFrames3 (by decide)
  have hm : headingMean exFrames3 = 20 := by
    norm_num [headingMean, exFrames3]
  constructor
  · rw [h.1, hm]
  · rw [h.2.1, hm, toFixed1_eq 20 200 (by norm_num [round_eq])]
    decide

/-- C8: the observed-zones text is the distinct zone labels in order of
first appearance, deduplicated, joined by comma and space: the code's
Set-insertion fold equals the specification's first-occurrence
deduplication, the result has no duplicates, and the frames with zones
["North", "South", "North"] yield "North, South". -/
theorem distinct_zones_first_occurrence :
    (∀ frames : List Frame,
        vastuZonesObserved frames =
          String.intercalate ", "
            (firstOccurrences (frames.map (fun f => f.zone))) ∧
        (jsSetAux [] (frames.map (fun f => f.zone))).Nodup) ∧
    vastuZonesObserved exFrames3 = "North, South" := by
  constructor
  · intro frames
    constructor
    · rw [vastuZonesObserved, jsSet_eq_firstOccurrences]
    · rw [jsSet_eq_firstOccurrences]
      exact firstOccurrences_nodup _
  · decide

/-- C10: an empty capturedFrames list is never rejected: with any
well-formed upstream answers the handler still returns HTTP 200 and issues
both calls, while the average heading is NaN (0/0), its display the string
"NaN", the observed-zones text empty — and the Stage-2 prompt is still a
string, interpolating "Average Heading: NaN degrees. Zones Covered: .". -/
theorem empty_frames_no_rejection (sd : ScanData) (key : Option String)
    (isDeepAnalysis : Bool) (r1 r2 : GenResult)
    (hkey : jsTruthyKey key = true) (hframes : sd.capturedFrames = []) :
    (generateReportHandler key isDeepAnalysis sd
        (twoCallTransport (.jsonOk r1) (.jsonOk r2))).status = 200 ∧
    (generateReportHandler key isDeepAnalysis sd
        (twoCallTransport (.jsonOk r1) (.jsonOk r2))).callsMade.length = 2 ∧
    avgHeading sd.capturedFrames = none ∧
    avgHeadingDisplay sd.capturedFrames = "NaN" ∧
    vastuZonesObserved sd.capturedFrames = "" ∧
    strContains (getAiQuery emptyScan false assessmentFallback)
      "Average Heading: NaN degrees. Zones Covered: ." = true := by
  refine ⟨?_, ?_, ?_, ?_, ?_, ?_⟩
  · simp [generateReportHandler, hkey, twoCallTransport]
  · simp [generateReportHandler, hkey, twoCallTransport]
  · rw [hframes]
    decide
  · rw [hframes]
    decide
  · rw [hframes]
    decide
  · decide

theorem empty_frames_no_rejection_witness :
    jsTruthyKey (some "key") = true ∧
    (generateReportHandler (some "key") false emptyScan
        (twoCallTransport (.jsonOk (echoResult "A")) (.jsonOk (echoResult "B")))).status = 200 ∧
    avgHeadingDisplay emptyScan.capturedFrames = "NaN" := by
  have h := empty_frames_no_rejection emptyScan (some "key") false
    (echoResult "A") (echoResult "B") (by decide) rfl
  exact ⟨by decide, h.1, h.2.2.2.1⟩
